import Mathlib

/-
Verification of the REMEDI evaluation/benchmarking core.

The definitions below are a shallow embedding of the Python sources:
  src/src/benchmarks.py      (essence and classification benchmarks)
  src/scripts/benchmark.py   (driver: load_editor, group_by_id, main loop)

Floating point scores are embedded as rationals; the Matthews correlation
coefficient, which divides by a square root, lives in the reals.  External
collaborators that are not part of the repository sources (the model, the
tokenizer, the metrics module, the editors module) are abstracted as function
parameters; the one external behavior a claim depends on, the scoped editor
application editors.apply, is modelled from the specification and marked as
such in its doc comment.
-/

/- ------------------------------------------------------------------ -/
/- Classifier metric primitives (sklearn accuracy_score, f1_score,
   matthews_corrcoef on boolean label/prediction sequences).           -/
/- ------------------------------------------------------------------ -/

/-- Number of pairs with label true and prediction true. -/
def truePos (y p : List Bool) : Nat := (y.zip p).countP fun q => q.1 && q.2

/-- Number of pairs with label false and prediction false. -/
def trueNeg (y p : List Bool) : Nat := (y.zip p).countP fun q => !q.1 && !q.2

/-- Number of pairs with label false and prediction true. -/
def falsePos (y p : List Bool) : Nat := (y.zip p).countP fun q => !q.1 && q.2

/-- Number of pairs with label true and prediction false. -/
def falseNeg (y p : List Bool) : Nat := (y.zip p).countP fun q => q.1 && !q.2

/-- sklearn.metrics.accuracy_score on boolean sequences:
fraction of positions where label equals prediction. -/
def accuracy_score (y p : List Bool) : ℚ :=
  if y.length = 0 then 0
  else (((y.zip p).countP fun q => q.1 == q.2 : Nat) : ℚ) / (y.length : ℚ)

/-- sklearn.metrics.f1_score on boolean sequences, with the default
zero_division behavior of returning 0 on a degenerate input. -/
def f1_score (y p : List Bool) : ℚ :=
  let tp := truePos y p
  let fp := falsePos y p
  let fn := falseNeg y p
  if 2 * tp + fp + fn = 0 then 0
  else (2 * tp : ℚ) / ((2 * tp + fp + fn : Nat) : ℚ)

/-- Numerator of the Matthews correlation coefficient. -/
def mccNum (y p : List Bool) : ℤ :=
  (truePos y p : ℤ) * (trueNeg y p : ℤ) - (falsePos y p : ℤ) * (falseNeg y p : ℤ)

/-- Square of the denominator of the Matthews correlation coefficient. -/
def mccDen (y p : List Bool) : ℤ :=
  ((truePos y p : ℤ) + (falsePos y p : ℤ)) * ((truePos y p : ℤ) + (falseNeg y p : ℤ)) *
    ((trueNeg y p : ℤ) + (falsePos y p : ℤ)) * ((trueNeg y p : ℤ) + (falseNeg y p : ℤ))

/-- sklearn.metrics.matthews_corrcoef on boolean sequences, returning 0 when
the denominator vanishes (the sklearn degenerate-case behavior). -/
noncomputable def matthews_corrcoef (y p : List Bool) : ℝ :=
  if mccDen y p = 0 then 0 else (mccNum y p : ℝ) / Real.sqrt (mccDen y p : ℝ)

/- ------------------------------------------------------------------ -/
/- Joint-negation lemmas for the metric primitives.                    -/
/- ------------------------------------------------------------------ -/

theorem zip_map_not (y p : List Bool) :
    (y.map not).zip (p.map not) = (y.zip p).map (Prod.map not not) :=
  List.zip_map not not y p

theorem truePos_not (y p : List Bool) :
    truePos (y.map not) (p.map not) = trueNeg y p := by
  unfold truePos trueNeg
  rw [zip_map_not, List.countP_map]
  rfl

theorem trueNeg_not (y p : List Bool) :
    trueNeg (y.map not) (p.map not) = truePos y p := by
  unfold truePos trueNeg
  rw [zip_map_not, List.countP_map]
  refine List.countP_congr fun q _ => ?_
  cases h1 : q.1 <;> cases h2 : q.2 <;> simp [Prod.map, Function.comp, h1, h2]

theorem falsePos_not (y p : List Bool) :
    falsePos (y.map not) (p.map not) = falseNeg y p := by
  unfold falsePos falseNeg
  rw [zip_map_not, List.countP_map]
  refine List.countP_congr fun q _ => ?_
  cases h1 : q.1 <;> cases h2 : q.2 <;> simp [Prod.map, Function.comp, h1, h2]

theorem falseNeg_not (y p : List Bool) :
    falseNeg (y.map not) (p.map not) = falsePos y p := by
  unfold falsePos falseNeg
  rw [zip_map_not, List.countP_map]
  refine List.countP_congr fun q _ => ?_
  cases h1 : q.1 <;> cases h2 : q.2 <;> simp [Prod.map, Function.comp, h1, h2]

theorem accuracy_score_not (y p : List Bool) :
    accuracy_score (y.map not) (p.map not) = accuracy_score y p := by
  unfold accuracy_score
  rw [List.length_map, zip_map_not, List.countP_map]
  have h : (y.zip p).countP ((fun q => q.1 == q.2) ∘ Prod.map not not) =
      (y.zip p).countP fun q : Bool × Bool => q.1 == q.2 := by
    refine List.countP_congr fun q _ => ?_
    cases h1 : q.1 <;> cases h2 : q.2 <;> simp [Prod.map, Function.comp, h1, h2]
  rw [h]

theorem mccNum_not (y p : List Bool) :
    mccNum (y.map not) (p.map not) = mccNum y p := by
  unfold mccNum
  rw [truePos_not, trueNeg_not, falsePos_not, falseNeg_not]
  ring

theorem mccDen_not (y p : List Bool) :
    mccDen (y.map not) (p.map not) = mccDen y p := by
  unfold mccDen
  rw [truePos_not, trueNeg_not, falsePos_not, falseNeg_not]
  ring

theorem matthews_corrcoef_not (y p : List Bool) :
    matthews_corrcoef (y.map not) (p.map not) = matthews_corrcoef y p := by
  unfold matthews_corrcoef
  rw [mccNum_not, mccDen_not]

/- ------------------------------------------------------------------ -/
/- Data model of the classification benchmark (benchmarks.py).         -/
/- ------------------------------------------------------------------ -/

/-- ClassifierOutputs from benchmarks.py: a single classifier sample.  The
fields are the stored floats; label, prediction and correct are the derived
dataclass properties. -/
structure ClassifierOutputs where
  logp_target : ℚ
  logp_comparator : ℚ
  score_target : ℚ
  score_comparator : ℚ
deriving DecidableEq

/-- Derived property: the ground-truth label. -/
def ClassifierOutputs.label (o : ClassifierOutputs) : Bool :=
  decide (o.logp_target > o.logp_comparator)

/-- Derived property: the predicted label. -/
def ClassifierOutputs.prediction (o : ClassifierOutputs) : Bool :=
  decide (o.score_target > o.score_comparator)

/-- Derived property: prediction equals label. -/
def ClassifierOutputs.correct (o : ClassifierOutputs) : Bool :=
  o.prediction == o.label

/-- ClassificationSample from benchmarks.py. -/
structure ClassificationSample where
  id : String
  contextual : ClassifierOutputs
  decontextual : ClassifierOutputs
deriving DecidableEq

/-- The two classification tasks. -/
inductive ClsTask where
  | contextual
  | decontextual
deriving DecidableEq

/-- The two scoring methods of the classification benchmark. -/
inductive Method where
  | editor
  | baseline
deriving DecidableEq

/-- getattr(sample, k) for k in ("contextual", "decontextual"). -/
def ClassificationSample.taskOutputs (s : ClassificationSample) : ClsTask → ClassifierOutputs
  | ClsTask.contextual => s.contextual
  | ClsTask.decontextual => s.decontextual

/-- The label/prediction sequences built at benchmarks.py lines 371-377,
parameterized by which attribute name getattr is called with.  First the
label and prediction sequences are read off the chosen outputs of every
sample; for the baseline method the prediction sequence is replaced by the
majority label, where majority means sum(y_true) >= len(y_true) / 2 under
float division. -/
def preNegSequencesWith
    (samples : List ClassificationSample) (method : Method) (key : ClsTask) :
    List Bool × List Bool :=
  let y_true := samples.map fun s => (s.taskOutputs key).label
  let y_pred := samples.map fun s => (s.taskOutputs key).prediction
  match method with
  | Method.editor => (y_true, y_pred)
  | Method.baseline =>
      let majority := decide ((y_true.count true : ℚ) ≥ (y_true.length : ℚ) / 2)
      (y_true, List.replicate y_true.length majority)

/-- The sequences the code actually scores.  In the Python source the scoring
loop reads getattr(sample, key) where key is the loop variable of the earlier
runs loop (benchmarks.py line 339), not the task variable of the scoring loop;
after that earlier loop finishes, key is permanently the string
"decontextual", so both tasks read the decontextual outputs. -/
def preNegSequences (samples : List ClassificationSample) (method : Method) :
    List Bool × List Bool :=
  preNegSequencesWith samples method ClsTask.decontextual

/-- The sequences as the specification describes the scoring: each task reads
the outputs stored under its own attribute name. -/
def preNegSequencesSpec
    (samples : List ClassificationSample) (method : Method) (task : ClsTask) :
    List Bool × List Bool :=
  preNegSequencesWith samples method task

/-- Label/prediction sequences fed to the metric functions (benchmarks.py
lines 371-383, including the stale key): for the contextual task both
sequences are negated element-wise before scoring. -/
def taskSequences
    (samples : List ClassificationSample) (method : Method) : ClsTask → List Bool × List Bool
  | ClsTask.contextual =>
      ((preNegSequences samples method).1.map not,
        (preNegSequences samples method).2.map not)
  | ClsTask.decontextual => preNegSequences samples method

/-- Label/prediction sequences as the specification describes them: same
negation for the contextual task, but each task reads its own outputs. -/
def taskSequencesSpec
    (samples : List ClassificationSample) (method : Method) : ClsTask → List Bool × List Bool
  | ClsTask.contextual =>
      ((preNegSequencesSpec samples method ClsTask.contextual).1.map not,
        (preNegSequencesSpec samples method ClsTask.contextual).2.map not)
  | ClsTask.decontextual => preNegSequencesSpec samples method ClsTask.decontextual

/-- ClassifierMetrics from benchmarks.py. -/
structure ClassifierMetrics where
  f1 : ℚ
  mcc : ℝ
  accuracy : ℚ

/-- The metric triple computed for one method/task pair
(benchmarks.py lines 385-390), as the code computes it. -/
noncomputable def scoreForMethodTask
    (samples : List ClassificationSample) (method : Method) (task : ClsTask) :
    ClassifierMetrics :=
  { f1 := f1_score (taskSequences samples method task).1 (taskSequences samples method task).2
    mcc := matthews_corrcoef (taskSequences samples method task).1
      (taskSequences samples method task).2
    accuracy := accuracy_score (taskSequences samples method task).1
      (taskSequences samples method task).2 }

/-- The metric triple as the specification describes it: computed from the
label and prediction sequences of the outputs of the task being scored. -/
noncomputable def scoreForMethodTaskSpec
    (samples : List ClassificationSample) (method : Method) (task : ClsTask) :
    ClassifierMetrics :=
  { f1 := f1_score (taskSequencesSpec samples method task).1
      (taskSequencesSpec samples method task).2
    mcc := matthews_corrcoef (taskSequencesSpec samples method task).1
      (taskSequencesSpec samples method task).2
    accuracy := accuracy_score (taskSequencesSpec samples method task).1
      (taskSequencesSpec samples method task).2 }

/-- ClassifierResults from benchmarks.py. -/
structure ClassifierResults where
  contextual : ClassifierMetrics
  decontextual : ClassifierMetrics

/-- The full metric roll-up of the classification benchmark
(benchmarks.py lines 368-394). -/
noncomputable def classificationScores (samples : List ClassificationSample) :
    Method → ClassifierResults := fun method =>
  { contextual := scoreForMethodTask samples method ClsTask.contextual
    decontextual := scoreForMethodTask samples method ClsTask.decontextual }

/-- A concrete sample on which the contextual and the decontextual outputs
disagree: contextual label and prediction are both true, decontextual label
is false while its prediction is true. -/
def c1Sample : ClassificationSample :=
  { id := "c1"
    contextual :=
      { logp_target := 1, logp_comparator := 0, score_target := 1, score_comparator := 0 }
    decontextual :=
      { logp_target := 0, logp_comparator := 1, score_target := 1, score_comparator := 0 } }

/-- C1: the decontextual half of the claim holds: decontextual metrics are a
function of the decontextual outputs.  The contextual half fails on the code:
because the scoring loop reads the stale variable key (stuck at
"decontextual") instead of the task variable, the contextual metrics are also
computed from the decontextual outputs.  On a one-sample input whose two
output records disagree, the code reports contextual accuracy 0 while scoring
the contextual task from its own outputs would report accuracy 1. -/
theorem remedi_C1_task_scores_from_own_outputs :
    (∀ (samples : List ClassificationSample) (method : Method),
      scoreForMethodTask samples method ClsTask.decontextual =
        scoreForMethodTaskSpec samples method ClsTask.decontextual)
    ∧ (scoreForMethodTask [c1Sample] Method.editor ClsTask.contextual).accuracy = 0
    ∧ (scoreForMethodTaskSpec [c1Sample] Method.editor ClsTask.contextual).accuracy = 1 := by
  refine ⟨fun samples method => rfl, ?_, ?_⟩
  · show accuracy_score (taskSequences [c1Sample] Method.editor ClsTask.contextual).1
      (taskSequences [c1Sample] Method.editor ClsTask.contextual).2 = 0
    have hseq : taskSequences [c1Sample] Method.editor ClsTask.contextual =
        ([true], [false]) := by decide
    rw [hseq]
    norm_num [accuracy_score]
  · show accuracy_score (taskSequencesSpec [c1Sample] Method.editor ClsTask.contextual).1
      (taskSequencesSpec [c1Sample] Method.editor ClsTask.contextual).2 = 1
    have hseq : taskSequencesSpec [c1Sample] Method.editor ClsTask.contextual =
        ([false], [false]) := by decide
    rw [hseq]
    norm_num [accuracy_score]

/-- C2: for the contextual task the code negates both the label sequence and
the prediction sequence element-wise before scoring: F1 is computed on the
negated sequences, while accuracy and MCC coincide with the scores of the
un-negated sequences; and for every pair of boolean sequences of equal
length, joint negation leaves accuracy and MCC unchanged. -/
theorem remedi_C2_contextual_negation
    (samples : List ClassificationSample) (method : Method) :
    (scoreForMethodTask samples method ClsTask.contextual).f1 =
        f1_score ((preNegSequences samples method).1.map not)
          ((preNegSequences samples method).2.map not)
    ∧ (scoreForMethodTask samples method ClsTask.contextual).accuracy =
        accuracy_score (preNegSequences samples method).1 (preNegSequences samples method).2
    ∧ (scoreForMethodTask samples method ClsTask.contextual).mcc =
        matthews_corrcoef (preNegSequences samples method).1
          (preNegSequences samples method).2
    ∧ ∀ (y p : List Bool), y.length = p.length →
        accuracy_score (y.map not) (p.map not) = accuracy_score y p
        ∧ matthews_corrcoef (y.map not) (p.map not) = matthews_corrcoef y p := by
  refine ⟨rfl, ?_, ?_, fun y p _ => ⟨accuracy_score_not y p, matthews_corrcoef_not y p⟩⟩
  · exact accuracy_score_not (preNegSequences samples method).1
      (preNegSequences samples method).2
  · exact matthews_corrcoef_not (preNegSequences samples method).1
      (preNegSequences samples method).2

/-- C2 witness: the general invariance part applied at a concrete unequal
pair of sequences of equal length. -/
theorem remedi_C2_contextual_negation_witness :
    accuracy_score ([true, false].map not) ([true, true].map not) =
        accuracy_score [true, false] [true, true]
    ∧ matthews_corrcoef ([true, false].map not) ([true, true].map not) =
        matthews_corrcoef [true, false] [true, true] :=
  (remedi_C2_contextual_negation [] Method.editor).2.2.2 [true, false] [true, true] rfl

/- ------------------------------------------------------------------ -/
/- Sample construction of the classification benchmark (C9).           -/
/- ------------------------------------------------------------------ -/

/-- A ContextMediationSample as consumed by the benchmarks: the fields the
code reads from a dataset row. -/
structure CMSample where
  id : String
  entity : String
  attr : String
  context : String
  source : String
deriving DecidableEq

/-- One row of precompute.classification_inputs_from_dataset: the four
precomputed baseline log-probabilities the classification benchmark reads. -/
structure ClassificationPrecomputed where
  prompt_in_context_target_logp : ℚ
  prompt_in_context_comparator_logp : ℚ
  prompt_target_logp : ℚ
  prompt_comparator_logp : ℚ
deriving DecidableEq

/-- One result of editor.classify: the sample plus mediated and unmediated
scores. -/
structure EditorClassificationResult where
  sample : CMSample
  score_mediated : ℚ
  score_unmediated : ℚ
deriving DecidableEq

/-- Construction of one ClassificationSample (benchmarks.py lines 351-365):
the contextual outputs store the mediated score as score_target and the
unmediated score as score_comparator; the decontextual outputs store them
the other way around. -/
def buildSample (pre : ClassificationPrecomputed)
    (rc rd : EditorClassificationResult) : ClassificationSample :=
  { id := rc.sample.id
    contextual :=
      { logp_target := pre.prompt_in_context_target_logp
        logp_comparator := pre.prompt_in_context_comparator_logp
        score_target := rc.score_mediated
        score_comparator := rc.score_unmediated }
    decontextual :=
      { logp_target := pre.prompt_target_logp
        logp_comparator := pre.prompt_comparator_logp
        score_target := rd.score_unmediated
        score_comparator := rd.score_mediated } }

/-- The sample list built by the classification benchmark: zip of the
precomputed rows with the contextual and decontextual classification runs
(benchmarks.py lines 349-366). -/
def buildSamples (pres : List ClassificationPrecomputed)
    (rcs rds : List EditorClassificationResult) : List ClassificationSample :=
  List.zipWith3 buildSample pres rcs rds

/-- C9: in every sample built by the classification benchmark, the
decontextual outputs store the unmediated score as score_target and the
mediated score as score_comparator, the reverse of the contextual
assignment; hence the decontextual prediction is true exactly when the
unmediated score exceeds the mediated one, while the contextual prediction
is true exactly when the mediated score exceeds the unmediated one. -/
theorem remedi_C9_decontextual_score_swap
    (pre : ClassificationPrecomputed) (rc rd : EditorClassificationResult)
    (pres : List ClassificationPrecomputed)
    (rcs rds : List EditorClassificationResult) :
    (buildSample pre rc rd).decontextual.score_target = rd.score_unmediated
    ∧ (buildSample pre rc rd).decontextual.score_comparator = rd.score_mediated
    ∧ (buildSample pre rc rd).contextual.score_target = rc.score_mediated
    ∧ (buildSample pre rc rd).contextual.score_comparator = rc.score_unmediated
    ∧ ((buildSample pre rc rd).decontextual.prediction = true ↔
        rd.score_unmediated > rd.score_mediated)
    ∧ ((buildSample pre rc rd).contextual.prediction = true ↔
        rc.score_mediated > rc.score_unmediated)
    ∧ buildSamples (pre :: pres) (rc :: rcs) (rd :: rds) =
        buildSample pre rc rd :: buildSamples pres rcs rds := by
  refine ⟨rfl, rfl, rfl, rfl, ?_, ?_, rfl⟩
  · simp [buildSample, ClassifierOutputs.prediction]
  · simp [buildSample, ClassifierOutputs.prediction]

/- ------------------------------------------------------------------ -/
/- group_by_id from scripts/benchmark.py (C3).                         -/
/- ------------------------------------------------------------------ -/

/-- One result of editor.evaluate: the raw sample plus the after-edit
scores and generations the driver reads. -/
structure EditorEvaluateResult where
  sample : CMSample
  after_target_mediated_score : Option ℚ
  after_target_unmediated_score : Option ℚ
  after_generations : List String
deriving DecidableEq

/-- EditorEvaluateRun: the ordered per-sample results of one evaluation. -/
structure EditorEvaluateRun where
  results : List EditorEvaluateResult
deriving DecidableEq

/-- One step of the defaultdict(list) loop: append r to the group keyed k,
creating the group at the end when the key is new (Python dicts preserve
insertion order). -/
def insertGrouped {β : Type} :
    List (String × List β) → String → β → List (String × List β)
  | [], k, r => [(k, [r])]
  | (k₂, rs) :: rest, k, r =>
      if k₂ = k then (k₂, rs ++ [r]) :: rest
      else (k₂, rs) :: insertGrouped rest k r

/-- The grouping loop of group_by_id over an arbitrary keyed list. -/
def groupListById {β : Type} (idOf : β → String) (l : List β) :
    List (String × List β) :=
  l.foldl (fun acc r => insertGrouped acc (idOf r) r) []

/-- group_by_id from scripts/benchmark.py lines 83-88: group the run results
by sample id into an insertion-ordered mapping. -/
def group_by_id (run : EditorEvaluateRun) : List (String × List EditorEvaluateResult) :=
  groupListById (fun r => r.sample.id) run.results

/-- Lookup of a key in the insertion-ordered mapping: the list stored under
the first entry with that key, empty when absent. -/
def groupLookup {β : Type} (acc : List (String × List β)) (k : String) : List β :=
  ((acc.find? fun q => q.1 == k).map Prod.snd).getD []

/-- The keys of a list of ids in order of first occurrence. -/
def firstOccAux (seen : List String) : List String → List String
  | [] => []
  | x :: xs => if x ∈ seen then firstOccAux seen xs else x :: firstOccAux (x :: seen) xs

/-- First-occurrence order of a list of ids. -/
def firstOccurrences (l : List String) : List String := firstOccAux [] l

theorem keys_insertGrouped {β : Type} (acc : List (String × List β)) (k : String) (r : β) :
    (insertGrouped acc k r).map Prod.fst =
      if k ∈ acc.map Prod.fst then acc.map Prod.fst else acc.map Prod.fst ++ [k] := by
  induction acc with
  | nil => simp [insertGrouped]
  | cons hd tl ih =>
      by_cases h : hd.1 = k
      · simp [insertGrouped, h]
      · have hne : ¬k = hd.1 := fun hk => h hk.symm
        simp only [insertGrouped]
        rw [if_neg h]
        simp only [List.map_cons, ih, List.mem_cons]
        by_cases hm : k ∈ tl.map Prod.fst
        · simp [hm, hne]
        · simp [hm, hne]

theorem groupLookup_insertGrouped {β : Type}
    (acc : List (String × List β)) (k : String) (r : β) (k₂ : String) :
    groupLookup (insertGrouped acc k r) k₂ =
      if k₂ = k then groupLookup acc k₂ ++ [r] else groupLookup acc k₂ := by
  induction acc with
  | nil =>
      by_cases h : k₂ = k
      · simp [insertGrouped, groupLookup, List.find?, h]
      · have hne : (k == k₂) = false := by
          simp [beq_iff_eq]
          exact fun hk => h hk.symm
        simp [insertGrouped, groupLookup, List.find?, hne, h]
  | cons hd tl ih =>
      by_cases h : hd.1 = k
      · by_cases h₂ : k₂ = k
        · have hb : (k == k₂) = true := by simp [beq_iff_eq, h₂]
          have hb₂ : (hd.1 == k₂) = true := by simp [beq_iff_eq, h, h₂]
          simp [insertGrouped, h, groupLookup, List.find?, hb, hb₂, h₂]
        · have hb : (k == k₂) = false := by
            simp only [beq_eq_false_iff_ne, ne_eq]
            exact fun hk => h₂ hk.symm
          have hb₂ : (hd.1 == k₂) = false := by rw [h]; exact hb
          simp [insertGrouped, h, groupLookup, List.find?, hb, hb₂, h₂]
      · by_cases hb : (hd.1 == k₂) = true
        · have h₂ : ¬k₂ = k := by
            have hk₂ : hd.1 = k₂ := by simpa [beq_iff_eq] using hb
            exact fun he => h (hk₂.trans he)
          simp [insertGrouped, h, groupLookup, List.find?, hb, h₂]
        · have hbf : (hd.1 == k₂) = false := by simpa using hb
          simp only [insertGrouped]
          rw [if_neg h]
          simp only [groupLookup, List.find?, hbf]
          exact ih

theorem groupLookup_foldl {β : Type} (idOf : β → String) (l : List β) :
    ∀ (acc : List (String × List β)) (k : String),
      groupLookup (l.foldl (fun a r => insertGrouped a (idOf r) r) acc) k =
        groupLookup acc k ++ l.filter fun r => idOf r == k := by
  induction l with
  | nil => intro acc k; simp
  | cons hd tl ih =>
      intro acc k
      simp only [List.foldl_cons, ih, groupLookup_insertGrouped]
      by_cases h : k = idOf hd
      · have hb : (idOf hd == k) = true := by simp [beq_iff_eq, h]
        simp [h, hb, List.filter_cons, List.append_assoc]
      · have hb : (idOf hd == k) = false := by
          simp [beq_iff_eq]
          exact fun hk => h hk.symm
        simp [h, hb, List.filter_cons]

theorem firstOccAux_congr (s₁ s₂ : List String) (h : ∀ x, x ∈ s₁ ↔ x ∈ s₂) :
    ∀ l : List String, firstOccAux s₁ l = firstOccAux s₂ l := by
  intro l
  induction l generalizing s₁ s₂ with
  | nil => simp [firstOccAux]
  | cons hd tl ih =>
      by_cases hm : hd ∈ s₁
      · have hm₂ : hd ∈ s₂ := (h hd).mp hm
        simp only [firstOccAux, if_pos hm, if_pos hm₂]
        exact ih s₁ s₂ h
      · have hm₂ : hd ∉ s₂ := fun hx => hm ((h hd).mpr hx)
        simp only [firstOccAux, if_neg hm, if_neg hm₂]
        refine congrArg (hd :: ·) (ih (hd :: s₁) (hd :: s₂) fun x => ?_)
        simp [h x]

theorem keys_foldl {β : Type} (idOf : β → String) (l : List β) :
    ∀ acc : List (String × List β),
      (l.foldl (fun a r => insertGrouped a (idOf r) r) acc).map Prod.fst =
        acc.map Prod.fst ++ firstOccAux (acc.map Prod.fst) (l.map idOf) := by
  induction l with
  | nil => intro acc; simp [firstOccAux]
  | cons hd tl ih =>
      intro acc
      simp only [List.foldl_cons, List.map_cons, firstOccAux]
      by_cases hm : idOf hd ∈ acc.map Prod.fst
      · rw [if_pos hm, ih]
        rw [keys_insertGrouped, if_pos hm]
      · rw [if_neg hm, ih]
        rw [keys_insertGrouped, if_neg hm]
        rw [List.append_assoc]
        refine congrArg (acc.map Prod.fst ++ ·) ?_
        rw [List.singleton_append]
        refine congrArg (idOf hd :: ·) ?_
        refine firstOccAux_congr _ _ (fun x => ?_) _
        simp [or_comm]

/-- C3: group_by_id returns a mapping from sample id to the results with
that id: the group keys appear in order of first occurrence of each id in
the input results, and the group of a key holds exactly the input results
carrying that id, in input order. -/
theorem remedi_C3_group_by_id_order (run : EditorEvaluateRun) :
    (group_by_id run).map Prod.fst =
        firstOccurrences (run.results.map fun r => r.sample.id)
    ∧ ∀ k : String,
        groupLookup (group_by_id run) k =
          run.results.filter fun r => r.sample.id == k := by
  constructor
  · have h := keys_foldl (fun r : EditorEvaluateResult => r.sample.id) run.results []
    simpa [group_by_id, groupListById, firstOccurrences] using h
  · intro k
    have h := groupLookup_foldl (fun r : EditorEvaluateResult => r.sample.id) run.results [] k
    simpa [group_by_id, groupListById, groupLookup] using h

/- ------------------------------------------------------------------ -/
/- Essence benchmark (benchmarks.py essence) and the scoped editor
   application it wraps around the edited generation call.             -/
/- ------------------------------------------------------------------ -/

/-- Opening curly brace character. -/
def lbrace : Char := Char.ofNat 123

/-- Closing curly brace character. -/
def rbrace : Char := Char.ofNat 125

/-- Python str.count of the two-character substitution slot over a character
list: non-overlapping occurrences, scanned left to right. -/
def countSlotsAux : List Char → Nat
  | c₁ :: c₂ :: rest =>
      if c₁ = lbrace ∧ c₂ = rbrace then 1 + countSlotsAux rest
      else countSlotsAux (c₂ :: rest)
  | _ => 0

/-- Number of substitution slots in a prompt template. -/
def countSlots (s : String) : Nat := countSlotsAux s.data

/-- Python str.format: replace each substitution slot by the argument. -/
def formatAux (e : List Char) : List Char → List Char
  | c₁ :: c₂ :: rest =>
      if c₁ = lbrace ∧ c₂ = rbrace then e ++ formatAux e rest
      else c₁ :: formatAux e (c₂ :: rest)
  | l => l

/-- prompt_template.format(entity). -/
def formatTemplate (t e : String) : String := String.mk (formatAux e.data t.data)

/-- DEFAULT_PROMPT_PREFIX from benchmarks.py (verbatim, typo included). -/
def DEFAULT_PROMPT_PFX : String := "The following is an except from a Wikipedia article:\n\n"

/-- DEFAULT_PROMPT_TEMPLATE from benchmarks.py. -/
def DEFAULT_PROMPT_TEMPLATE : String := "\x7b\x7d is"

/-- DEFAULT_MAX_LENGTH from benchmarks.py. -/
def DEFAULT_MAX_LENGTH : Nat := 100

/-- A model handle: base parameters plus the stack of editing hooks
currently registered on it.  Generation is a deterministic function of the
hook-transformed parameters and the inputs (the seed is fixed throughout and
folded into the generation function). -/
structure MT (α : Type) where
  base : α
  hooks : List (α → α)

/-- The parameters the model actually runs with: all registered hooks
applied to the base parameters. -/
def MT.applyHooks {α : Type} (mt : MT α) : α :=
  mt.hooks.foldr (fun h a => h a) mt.base

/-- Modelled from the spec: editors.apply of the editors module, which is
not under src/.  Section 4.2 of the specification: applying an editor
registers its transformation hook on the model for the duration of a block
of work and guarantees removal of the hook when the scope exits, whether the
work completes normally or raises (try/finally semantics).  The work runs
against the edited handle; the returned handle has the hook popped again. -/
def editorsApply {α β ε : Type} (mt : MT α) (hook : α → α)
    (work : MT α → Except ε β) : Except ε β × MT α :=
  let edited : MT α := { mt with hooks := hook :: mt.hooks }
  let result := work edited
  (result, { edited with hooks := edited.hooks.drop 1 })

/-- The model computations the essence benchmark performs, with the
generation caps each generate call receives. -/
inductive ModelCall where
  | forwardPfx (text : String)
  | generateBase (maxNewTokens : Option Nat) (maxLength : Option Nat)
  | generateEdited (maxNewTokens : Option Nat) (maxLength : Option Nat)
deriving DecidableEq

/-- The two ValueError configurations essence raises (benchmarks.py lines
90-96). -/
inductive EssenceError where
  | promptTemplate (template : String)
  | sizeMismatch (numReferences numSamples : Nat)
deriving DecidableEq

/-- Keyword arguments of essence.  prompt_pfx embeds the Python
prompt_prefix argument. -/
structure EssenceArgs where
  prompt_pfx : Option String := some DEFAULT_PROMPT_PFX
  prompt_template : String := DEFAULT_PROMPT_TEMPLATE
  batch_size : Nat := 1
  max_new_tokens : Option Nat := none
  max_length : Option Nat := none
  use_references : Option (List (List String)) := none

/-- EssenceSample from benchmarks.py. -/
structure EssenceSample where
  id : String
  generation : String
  references : List String
  essence_score : ℚ
  fluency_generation_score : ℚ
  fluency_references_score : ℚ
deriving DecidableEq

/-- Contiguous chunking (torch DataLoader batching), via a structural fuel
so that chunks of concrete lists evaluate by kernel reduction; the fuel
l.length suffices for every positive chunk size. -/
def chunkAux {α : Type} (n : Nat) : Nat → List α → List (List α)
  | _, [] => []
  | 0, l => [l]
  | fuel + 1, l => l.take n :: chunkAux n fuel (l.drop n)

/-- Split a list into contiguous batches of size n. -/
def chunkList {α : Type} (n : Nat) (l : List α) : List (List α) :=
  chunkAux n l.length l

/-- Per-sample record of one essence batch: generation, references, essence
score, generation fluency, reference fluency. -/
abbrev EssenceRec := String × List String × ℚ × ℚ × ℚ

/-- One batch of the essence loop (benchmarks.py lines 121-202): build the
prompts, obtain reference groups (from the unedited model when none were
supplied), generate the edited continuations inside the editors.apply scope,
and score each sample.  The external metric functions tfidfSim, entGen and
entRefs stand for metrics.tfidf_similarity and
metrics.weighted_n_gram_entropy. -/
def essenceBatch {α : Type} (gen : α → String → String) (hook : α → α)
    (tfidfSim : String → List String → ℚ) (entGen : String → ℚ)
    (entRefs : List String → ℚ) (template : String) (mnt ml : Option Nat)
    (mt : MT α) (batch : List CMSample) (refs : Option (List (List String))) :
    List ModelCall × List EssenceRec × MT α :=
  let prompts := batch.map fun s => formatTemplate template s.entity
  let baseStep : List ModelCall × List (List String) :=
    match refs with
    | none =>
        let outs := prompts.map fun prm => gen mt.applyHooks prm
        ([ModelCall.generateBase mnt ml], outs.map fun r => [r])
    | some rs => ([], rs)
  let edited := editorsApply mt hook
    (fun em => (Except.ok (prompts.map fun prm => gen em.applyHooks prm) :
      Except Unit (List String)))
  let generations := match edited.1 with
    | Except.ok gs => gs
    | Except.error _ => []
  let recs := (generations.zip baseStep.2).map fun gr =>
    (gr.1, gr.2, tfidfSim gr.1 gr.2, entGen gr.1, entRefs gr.2)
  (baseStep.1 ++ [ModelCall.generateEdited mnt ml], recs, edited.2)

/-- The batch loop of essence, threading the model handle through the
scoped applications. -/
def essenceLoop {α : Type} (gen : α → String → String) (hook : α → α)
    (tfidfSim : String → List String → ℚ) (entGen : String → ℚ)
    (entRefs : List String → ℚ) (template : String) (mnt ml : Option Nat) :
    MT α → List (List CMSample × Option (List (List String))) →
      List ModelCall × List EssenceRec × MT α
  | mt, [] => ([], [], mt)
  | mt, b :: bs =>
      let r₁ := essenceBatch gen hook tfidfSim entGen entRefs template mnt ml mt b.1 b.2
      let r₂ := essenceLoop gen hook tfidfSim entGen entRefs template mnt ml r₁.2.2 bs
      (r₁.1 ++ r₂.1, r₁.2.1 ++ r₂.2.1, r₂.2.2)

/-- The body of essence after validation (benchmarks.py lines 98-236):
resolve the generation caps (both caps unset defaults max_length to
DEFAULT_MAX_LENGTH), precompute the prompt prefix representation once when
a prefix is given, run the batch loop, and zip the dataset with the
accumulated per-sample records. -/
def essenceCore {α : Type} (gen : α → String → String) (hook : α → α)
    (tfidfSim : String → List String → ℚ) (entGen : String → ℚ)
    (entRefs : List String → ℚ) (args : EssenceArgs) (dataset : List CMSample)
    (mt : MT α) :
    Except EssenceError (List EssenceSample) × List ModelCall × MT α :=
  let ml := if args.max_length = none ∧ args.max_new_tokens = none then
      some DEFAULT_MAX_LENGTH
    else args.max_length
  let mnt := args.max_new_tokens
  let pfxCalls : List ModelCall :=
    match args.prompt_pfx with
    | some p => [ModelCall.forwardPfx p]
    | none => []
  let batches := chunkList args.batch_size dataset
  let refBatches : List (Option (List (List String))) :=
    match args.use_references with
    | none => batches.map fun _ => none
    | some rs => (chunkList args.batch_size rs).map some
  let r := essenceLoop gen hook tfidfSim entGen entRefs args.prompt_template
    mnt ml mt (batches.zip refBatches)
  let samples : List EssenceSample := (dataset.zip r.2.1).map fun sr =>
    { id := sr.1.id
      generation := sr.2.1
      references := sr.2.2.1
      essence_score := sr.2.2.2.1
      fluency_generation_score := sr.2.2.2.2.1
      fluency_references_score := sr.2.2.2.2.2 }
  (Except.ok samples, pfxCalls ++ r.1, r.2.2)

/-- essence from benchmarks.py: validate the prompt template and the
supplied references before any model computation, then run the core. -/
def essenceRun {α : Type} (gen : α → String → String) (hook : α → α)
    (tfidfSim : String → List String → ℚ) (entGen : String → ℚ)
    (entRefs : List String → ℚ) (args : EssenceArgs) (dataset : List CMSample)
    (mt : MT α) :
    Except EssenceError (List EssenceSample) × List ModelCall × MT α :=
  if countSlots args.prompt_template ≠ 1 then
    (Except.error (EssenceError.promptTemplate args.prompt_template), [], mt)
  else
    match args.use_references with
    | some rs =>
        if rs.length ≠ dataset.length then
          (Except.error (EssenceError.sizeMismatch rs.length dataset.length), [], mt)
        else essenceCore gen hook tfidfSim entGen entRefs args dataset mt
    | none => essenceCore gen hook tfidfSim entGen entRefs args dataset mt

theorem essenceLoop_mt {α : Type} (gen : α → String → String) (hook : α → α)
    (tfidfSim : String → List String → ℚ) (entGen : String → ℚ)
    (entRefs : List String → ℚ) (template : String) (mnt ml : Option Nat) :
    ∀ (bs : List (List CMSample × Option (List (List String)))) (mt : MT α),
      (essenceLoop gen hook tfidfSim entGen entRefs template mnt ml mt bs).2.2 = mt := by
  intro bs
  induction bs with
  | nil => intro mt; rfl
  | cons b bs ih =>
      intro mt
      show (essenceLoop gen hook tfidfSim entGen entRefs template mnt ml
        (essenceBatch gen hook tfidfSim entGen entRefs template mnt ml mt b.1 b.2).2.2
        bs).2.2 = mt
      rw [ih]
      rfl

/-- C5: the scoped editing application restores the model: whatever the
enclosed work does (succeed or raise), the handle after the scope equals the
handle before it, so a generation call made after the scope, with identical
inputs and seed, returns exactly what it returned before the scope was ever
opened; and a whole essence benchmark invocation leaves the model handle it
was given unchanged. -/
theorem remedi_C5_scoped_apply_restores {α β ε : Type} (mt : MT α)
    (hook : α → α) (work : MT α → Except ε β) (gen : α → String → String)
    (inp : String) (tfidfSim : String → List String → ℚ) (entGen : String → ℚ)
    (entRefs : List String → ℚ) (args : EssenceArgs) (dataset : List CMSample) :
    (editorsApply mt hook work).2 = mt
    ∧ gen (editorsApply mt hook work).2.applyHooks inp = gen mt.applyHooks inp
    ∧ (essenceRun gen hook tfidfSim entGen entRefs args dataset mt).2.2 = mt := by
  refine ⟨rfl, rfl, ?_⟩
  rw [essenceRun]
  by_cases h : countSlots args.prompt_template ≠ 1
  · rw [if_pos h]
  · rw [if_neg h]
    rcases hr : args.use_references with _ | rs
    · exact essenceLoop_mt gen hook tfidfSim entGen entRefs args.prompt_template _ _ _ mt
    · dsimp only
      by_cases hlen : rs.length ≠ dataset.length
      · rw [if_pos hlen]
      · rw [if_neg hlen]
        exact essenceLoop_mt gen hook tfidfSim entGen entRefs args.prompt_template _ _ _ mt

/-- C6: the essence benchmark rejects a prompt template that does not have
exactly one substitution slot, and rejects supplied references whose length
differs from the dataset length, in both cases before any model computation
(the recorded model-call trace is empty); on valid inputs it returns
successfully. -/
theorem remedi_C6_validation {α : Type} (gen : α → String → String)
    (hook : α → α) (tfidfSim : String → List String → ℚ) (entGen : String → ℚ)
    (entRefs : List String → ℚ) (args : EssenceArgs) (dataset : List CMSample)
    (mt : MT α) :
    (countSlots args.prompt_template ≠ 1 →
      essenceRun gen hook tfidfSim entGen entRefs args dataset mt =
        (Except.error (EssenceError.promptTemplate args.prompt_template), [], mt))
    ∧ (∀ rs, countSlots args.prompt_template = 1 → args.use_references = some rs →
        rs.length ≠ dataset.length →
        essenceRun gen hook tfidfSim entGen entRefs args dataset mt =
          (Except.error (EssenceError.sizeMismatch rs.length dataset.length), [], mt))
    ∧ (countSlots args.prompt_template = 1 →
        (∀ rs, args.use_references = some rs → rs.length = dataset.length) →
        ∃ samples, (essenceRun gen hook tfidfSim entGen entRefs args dataset mt).1 =
          Except.ok samples) := by
  refine ⟨?_, ?_, ?_⟩
  · intro h
    rw [essenceRun, if_pos h]
  · intro rs h₁ h₂ h₃
    have hne : ¬countSlots args.prompt_template ≠ 1 := by simp [h₁]
    rw [essenceRun, if_neg hne, h₂]
    simp only [if_pos h₃]
  · intro h₁ h₂
    have hne : ¬countSlots args.prompt_template ≠ 1 := by simp [h₁]
    rw [essenceRun, if_neg hne]
    rcases hr : args.use_references with _ | rs
    · exact ⟨_, rfl⟩
    · dsimp only
      have hlen : ¬rs.length ≠ dataset.length := by simp [h₂ rs hr]
      rw [if_neg hlen]
      exact ⟨_, rfl⟩

theorem essenceBatch_calls {α : Type} (gen : α → String → String)
    (hook : α → α) (tfidfSim : String → List String → ℚ) (entGen : String → ℚ)
    (entRefs : List String → ℚ) (template : String) (mnt ml : Option Nat)
    (mt : MT α) (batch : List CMSample) (refs : Option (List (List String)))
    (c : ModelCall)
    (hc : c ∈ (essenceBatch gen hook tfidfSim entGen entRefs template mnt ml
      mt batch refs).1) :
    c = ModelCall.generateBase mnt ml ∨ c = ModelCall.generateEdited mnt ml := by
  rcases refs with _ | rs
  · simpa [essenceBatch] using hc
  · exact Or.inr (by simpa [essenceBatch] using hc)

theorem essenceLoop_calls {α : Type} (gen : α → String → String)
    (hook : α → α) (tfidfSim : String → List String → ℚ) (entGen : String → ℚ)
    (entRefs : List String → ℚ) (template : String) (mnt ml : Option Nat) :
    ∀ (bs : List (List CMSample × Option (List (List String)))) (mt : MT α)
      (c : ModelCall),
      c ∈ (essenceLoop gen hook tfidfSim entGen entRefs template mnt ml mt bs).1 →
      c = ModelCall.generateBase mnt ml ∨ c = ModelCall.generateEdited mnt ml := by
  intro bs
  induction bs with
  | nil => intro mt c hc; simp [essenceLoop] at hc
  | cons b bs ih =>
      intro mt c hc
      rw [essenceLoop] at hc
      rcases List.mem_append.mp hc with h | h
      · exact essenceBatch_calls gen hook tfidfSim entGen entRefs template mnt ml
          mt b.1 b.2 c h
      · exact ih _ c h

/-- C8: every generation call of the essence benchmark receives exactly the
caller caps, except that when both caps are unset max_length is resolved to
the fixed fallback DEFAULT_MAX_LENGTH = 100 before any generation; when at
least one cap is supplied both are passed through unchanged. -/
theorem remedi_C8_generation_caps {α : Type} (gen : α → String → String)
    (hook : α → α) (tfidfSim : String → List String → ℚ) (entGen : String → ℚ)
    (entRefs : List String → ℚ) (args : EssenceArgs) (dataset : List CMSample)
    (mt : MT α) (mnt ml : Option Nat)
    (hc : ModelCall.generateBase mnt ml ∈
        (essenceRun gen hook tfidfSim entGen entRefs args dataset mt).2.1
      ∨ ModelCall.generateEdited mnt ml ∈
        (essenceRun gen hook tfidfSim entGen entRefs args dataset mt).2.1) :
    mnt = args.max_new_tokens
    ∧ ml = (if args.max_length = none ∧ args.max_new_tokens = none then
        some DEFAULT_MAX_LENGTH
      else args.max_length) := by
  have hcore : ∀ c : ModelCall,
      c ∈ (essenceCore gen hook tfidfSim entGen entRefs args dataset mt).2.1 →
      c = ModelCall.generateBase args.max_new_tokens
            (if args.max_length = none ∧ args.max_new_tokens = none then
              some DEFAULT_MAX_LENGTH else args.max_length)
        ∨ c = ModelCall.generateEdited args.max_new_tokens
            (if args.max_length = none ∧ args.max_new_tokens = none then
              some DEFAULT_MAX_LENGTH else args.max_length)
        ∨ ∃ p, c = ModelCall.forwardPfx p := by
    intro c hmem
    rw [essenceCore] at hmem
    rcases List.mem_append.mp hmem with h | h
    · rcases hp : args.prompt_pfx with _ | p
      · rw [hp] at h; simp at h
      · rw [hp] at h
        simp only [List.mem_singleton] at h
        exact Or.inr (Or.inr ⟨p, h⟩)
    · rcases essenceLoop_calls gen hook tfidfSim entGen entRefs
        args.prompt_template _ _ _ _ c h with h₂ | h₂
      · exact Or.inl h₂
      · exact Or.inr (Or.inl h₂)
  have hrun : ∀ c : ModelCall,
      c ∈ (essenceRun gen hook tfidfSim entGen entRefs args dataset mt).2.1 →
      c = ModelCall.generateBase args.max_new_tokens
            (if args.max_length = none ∧ args.max_new_tokens = none then
              some DEFAULT_MAX_LENGTH else args.max_length)
        ∨ c = ModelCall.generateEdited args.max_new_tokens
            (if args.max_length = none ∧ args.max_new_tokens = none then
              some DEFAULT_MAX_LENGTH else args.max_length)
        ∨ ∃ p, c = ModelCall.forwardPfx p := by
    intro c hmem
    rw [essenceRun] at hmem
    by_cases h : countSlots args.prompt_template ≠ 1
    · rw [if_pos h] at hmem; simp at hmem
    · rw [if_neg h] at hmem
      rcases hr : args.use_references with _ | rs
      · rw [hr] at hmem
        exact hcore c hmem
      · rw [hr] at hmem
        dsimp only at hmem
        by_cases hlen : rs.length ≠ dataset.length
        · rw [if_pos hlen] at hmem; simp at hmem
        · rw [if_neg hlen] at hmem
          exact hcore c hmem
  rcases hc with h | h
  · rcases hrun _ h with h₂ | h₂ | ⟨p, h₂⟩
    · exact ⟨(ModelCall.generateBase.injEq _ _ _ _).mp h₂ |>.1,
        (ModelCall.generateBase.injEq _ _ _ _).mp h₂ |>.2⟩
    · exact absurd h₂ (by simp)
    · exact absurd h₂ (by simp)
  · rcases hrun _ h with h₂ | h₂ | ⟨p, h₂⟩
    · exact absurd h₂ (by simp)
    · exact ⟨(ModelCall.generateEdited.injEq _ _ _ _).mp h₂ |>.1,
        (ModelCall.generateEdited.injEq _ _ _ _).mp h₂ |>.2⟩
    · exact absurd h₂ (by simp)

/-- Trivial model parameters used by concrete witnesses. -/
def genUnit : Unit → String → String := fun _ prm => prm

/-- Identity hook used by concrete witnesses. -/
def hookUnit : Unit → Unit := id

/-- Constant similarity metric used by concrete witnesses. -/
def tfidfZero : String → List String → ℚ := fun _ _ => 0

/-- Constant entropy metric used by concrete witnesses. -/
def entGenZero : String → ℚ := fun _ => 0

/-- Constant reference entropy metric used by concrete witnesses. -/
def entRefsZero : List String → ℚ := fun _ => 0

/-- A bare model handle used by concrete witnesses. -/
def mtUnit : MT Unit := { base := (), hooks := [] }

/-- A concrete dataset sample used by concrete witnesses. -/
def cmSample1 : CMSample :=
  { id := "s1", entity := "E", attr := "A", context := "C", source := "S" }

/-- Valid essence arguments with both caps unset, used by concrete
witnesses. -/
def essenceArgsGood : EssenceArgs :=
  { prompt_pfx := none
    prompt_template := DEFAULT_PROMPT_TEMPLATE
    batch_size := 1
    max_new_tokens := none
    max_length := none
    use_references := none }

/-- Essence arguments with a slotless prompt template. -/
def essenceArgsNoSlot : EssenceArgs :=
  { prompt_pfx := none
    prompt_template := "no slot"
    batch_size := 1
    max_new_tokens := none
    max_length := none
    use_references := none }

/-- Essence arguments supplying two reference groups (against a one-sample
dataset). -/
def essenceArgsMismatch : EssenceArgs :=
  { prompt_pfx := none
    prompt_template := DEFAULT_PROMPT_TEMPLATE
    batch_size := 1
    max_new_tokens := none
    max_length := none
    use_references := some [[], []] }

/-- C6 witness: the validation theorem applied at concrete inputs: a
slotless template errors with an empty call trace, a reference count
mismatch errors with an empty call trace, and the valid configuration
returns successfully. -/
theorem remedi_C6_validation_witness :
    essenceRun genUnit hookUnit tfidfZero entGenZero entRefsZero
        essenceArgsNoSlot [cmSample1] mtUnit =
      (Except.error (EssenceError.promptTemplate essenceArgsNoSlot.prompt_template),
        [], mtUnit)
    ∧ essenceRun genUnit hookUnit tfidfZero entGenZero entRefsZero
        essenceArgsMismatch [cmSample1] mtUnit =
      (Except.error (EssenceError.sizeMismatch 2 1), [], mtUnit)
    ∧ ∃ samples,
        (essenceRun genUnit hookUnit tfidfZero entGenZero entRefsZero
          essenceArgsGood [cmSample1] mtUnit).1 = Except.ok samples := by
  refine ⟨?_, ?_, ?_⟩
  · exact (remedi_C6_validation genUnit hookUnit tfidfZero entGenZero entRefsZero
      essenceArgsNoSlot [cmSample1] mtUnit).1 (by decide)
  · exact (remedi_C6_validation genUnit hookUnit tfidfZero entGenZero entRefsZero
      essenceArgsMismatch [cmSample1] mtUnit).2.1 [[], []] (by decide) rfl (by decide)
  · exact (remedi_C6_validation genUnit hookUnit tfidfZero entGenZero entRefsZero
      essenceArgsGood [cmSample1] mtUnit).2.2 (by decide)
      (fun rs h => by simp [essenceArgsGood] at h)

/-- C8 witness: the caps theorem applied to the concrete run with both caps
unset, in which a base generation call with caps (none, some 100) occurs. -/
theorem remedi_C8_generation_caps_witness :
    (none : Option Nat) = essenceArgsGood.max_new_tokens
    ∧ (some DEFAULT_MAX_LENGTH : Option Nat) =
        (if essenceArgsGood.max_length = none ∧ essenceArgsGood.max_new_tokens = none
          then some DEFAULT_MAX_LENGTH
          else essenceArgsGood.max_length) :=
  remedi_C8_generation_caps genUnit hookUnit tfidfZero entGenZero entRefsZero
    essenceArgsGood [cmSample1] mtUnit none (some DEFAULT_MAX_LENGTH)
    (Or.inl (by decide))

/- ------------------------------------------------------------------ -/
/- Resumable per-layer subset loop of scripts/benchmark.py main (C4).  -/
/- ------------------------------------------------------------------ -/

/-- The three dataset subsets evaluated per layer, in loop order. -/
inductive SubsetKey where
  | prompts
  | paraphrase_prompts
  | generation_prompts
deriving DecidableEq

/-- The iteration order of the subset loop (scripts/benchmark.py lines
148-156). -/
def subsetKeys : List SubsetKey :=
  [SubsetKey.prompts, SubsetKey.paraphrase_prompts, SubsetKey.generation_prompts]

/-- Pointwise update of a finite map. -/
def setAt {κ β : Type} [DecidableEq κ] (f : κ → Option β) (k : κ) (v : Option β) :
    κ → Option β :=
  fun k₂ => if k₂ = k then v else f k₂

/-- State of the subset loop: the in-memory results dict, the directory of
results files (file content as serialized text), and the subsets for which
editor.evaluate was invoked, in order. -/
structure SubsetState (α : Type) where
  results : SubsetKey → Option α
  store : SubsetKey → Option String
  calls : List SubsetKey

/-- One iteration of the subset loop (scripts/benchmark.py lines 157-178):
when the results file exists, deserialize it into the results dict and skip
evaluation; otherwise evaluate, record the run, and persist its
serialization.  enc and dec stand for EditorEvaluateRun.to_json and
EditorEvaluateRun.from_json of the external dataclasses_json mixin. -/
def processSubset {α : Type} (enc : α → String) (dec : String → Option α)
    (evalFn : SubsetKey → α) (st : SubsetState α) (key : SubsetKey) :
    SubsetState α :=
  match st.store key with
  | some s => { st with results := setAt st.results key (dec s) }
  | none =>
      let r := evalFn key
      { results := setAt st.results key (some r)
        store := setAt st.store key (some (enc r))
        calls := st.calls ++ [key] }

/-- The per-layer subset loop over the three subsets. -/
def runLayerSubsets {α : Type} (enc : α → String) (dec : String → Option α)
    (evalFn : SubsetKey → α) (store : SubsetKey → Option String) :
    SubsetState α :=
  subsetKeys.foldl (processSubset enc dec evalFn)
    { results := fun _ => none, store := store, calls := [] }

/-- C4: a subset with an existing results file is loaded by deserializing
that file and is not evaluated; consequently, a second run over the store
the first run persisted makes zero evaluation calls and reproduces the same
runs and the same store. -/
theorem remedi_C4_resumable_subsets {α : Type} (enc : α → String)
    (dec : String → Option α) (evalFn : SubsetKey → α)
    (store : SubsetKey → Option String) (hrt : ∀ r, dec (enc r) = some r) :
    (∀ k s, store k = some s →
      (runLayerSubsets enc dec evalFn store).results k = dec s
      ∧ k ∉ (runLayerSubsets enc dec evalFn store).calls)
    ∧ (runLayerSubsets enc dec evalFn
        (runLayerSubsets enc dec evalFn store).store).calls = []
    ∧ (runLayerSubsets enc dec evalFn
        (runLayerSubsets enc dec evalFn store).store).results =
      (runLayerSubsets enc dec evalFn store).results
    ∧ (runLayerSubsets enc dec evalFn
        (runLayerSubsets enc dec evalFn store).store).store =
      (runLayerSubsets enc dec evalFn store).store := by
  rcases hp : store SubsetKey.prompts with _ | sp <;>
    rcases hq : store SubsetKey.paraphrase_prompts with _ | sq <;>
      rcases hg : store SubsetKey.generation_prompts with _ | sg <;>
  · constructor
    · intro k s hks
      cases k <;>
        simp_all [runLayerSubsets, subsetKeys, processSubset, setAt, hrt,
          List.foldl]
    · refine ⟨?_, funext fun k => ?_, funext fun k => ?_⟩
      · simp_all [runLayerSubsets, subsetKeys, processSubset, setAt, hrt,
          List.foldl]
      · cases k <;>
          simp_all [runLayerSubsets, subsetKeys, processSubset, setAt, hrt,
            List.foldl]
      · cases k <;>
          simp_all [runLayerSubsets, subsetKeys, processSubset, setAt, hrt,
            List.foldl]

/-- Serialization used by the C4 witness. -/
def encBool : Bool → String := fun b => if b then "t" else "f"

/-- Deserialization used by the C4 witness. -/
def decBool : String → Option Bool := fun s =>
  if s = "t" then some true else if s = "f" then some false else none

/-- C4 witness: the resumability theorem applied to a concrete
round-tripping serialization, a constant evaluator, and the empty store. -/
theorem remedi_C4_resumable_subsets_witness :
    (runLayerSubsets encBool decBool (fun _ => true)
      (runLayerSubsets encBool decBool (fun _ => true) (fun _ => none)).store).calls = []
    ∧ (runLayerSubsets encBool decBool (fun _ => true)
        (runLayerSubsets encBool decBool (fun _ => true) (fun _ => none)).store).results =
      (runLayerSubsets encBool decBool (fun _ => true) (fun _ => none)).results := by
  have h := remedi_C4_resumable_subsets encBool decBool (fun _ => true)
    (fun _ => none) (fun r => by cases r <;> rfl)
  exact ⟨h.2.1, h.2.2.1⟩

/- ------------------------------------------------------------------ -/
/- load_editor and the per-layer skip logic of scripts/benchmark.py
   (C7, C10).                                                          -/
/- ------------------------------------------------------------------ -/

/-- An editor as far as the driver observes it: its type, its layer, and
whether a weights state dict was loaded into it. -/
structure Editor where
  type : String
  layer : Nat
  loadedWeights : Bool
deriving DecidableEq

/-- editors_dir / editor_type / str(layer) / "weights.pth"
(scripts/benchmark.py line 36), as a path segment list. -/
def weights_file (editors_dir : List String) (editor_type : String)
    (layer : Nat) : List String :=
  editors_dir ++ [editor_type, toString layer, "weights.pth"]

/-- The body of load_editor after the factory lookup (scripts/benchmark.py
lines 28-45): construct the editor; for a non-identity type, return None
when no editors_dir was given or the weights file does not exist, and load
the weights otherwise.  The boolean records whether a weights file was read
from disk (torch.load). -/
def load_editor_core (ex : List String → Bool) (editor_type : String)
    (layer : Nat) (editors_dir : Option (List String)) : Option Editor × Bool :=
  let editor : Editor := { type := editor_type, layer := layer, loadedWeights := false }
  if editor_type ≠ "identity" then
    match editors_dir with
    | none => (none, false)
    | some dir =>
        if ex (weights_file dir editor_type layer) then
          (some { editor with loadedWeights := true }, true)
        else (none, false)
  else (some editor, false)

/-- load_editor from scripts/benchmark.py lines 19-45.  The factory lookup
SUPPORTED_EDITORS[editor_type] raises KeyError for an unsupported type,
embedded as the error case; supported stands for the key set of the external
SUPPORTED_EDITORS registry. -/
def load_editor (supported : List String) (ex : List String → Bool)
    (editor_type : String) (layer : Nat) (editors_dir : Option (List String)) :
    Except Unit (Option Editor × Bool) :=
  if editor_type ∈ supported then
    Except.ok (load_editor_core ex editor_type layer editors_dir)
  else Except.error ()

/-- The per-layer loop of main (scripts/benchmark.py lines 139-145): load
the editor for each layer; when load_editor returns None the layer is
skipped (outcome none) and the loop continues with the next layer, otherwise
the benchmark body runs on the loaded editor. -/
def mainLayerLoop {β : Type} (supported : List String) (ex : List String → Bool)
    (editor_type : String) (editors_dir : Option (List String))
    (runB : Editor → β) (layers : List Nat) :
    Except Unit (List (Nat × Option β)) :=
  layers.mapM fun layer =>
    (load_editor supported ex editor_type layer editors_dir).map
      fun r => (layer, r.1.map runB)

theorem mapM_except_ok {γ δ : Type} (g : γ → δ) :
    ∀ l : List γ,
      (l.mapM fun x => (Except.ok (g x) : Except Unit δ)) = Except.ok (l.map g) := by
  intro l
  induction l with
  | nil => rfl
  | cons hd tl ih =>
      simp only [List.mapM_cons, ih, List.map_cons]
      rfl

theorem mainLayerLoop_ok {β : Type} (supported : List String)
    (ex : List String → Bool) (editor_type : String)
    (editors_dir : Option (List String)) (runB : Editor → β)
    (hsup : editor_type ∈ supported) :
    ∀ layers : List Nat,
      mainLayerLoop supported ex editor_type editors_dir runB layers =
        Except.ok (layers.map fun layer =>
          (layer, (load_editor_core ex editor_type layer editors_dir).1.map runB)) := by
  intro layers
  have hfn : (fun layer => (load_editor supported ex editor_type layer editors_dir).map
        fun r => (layer, r.1.map runB)) =
      fun layer => (Except.ok
        ((layer, (load_editor_core ex editor_type layer editors_dir).1.map runB)) :
          Except Unit (Nat × Option β)) := by
    funext layer
    rw [load_editor, if_pos hsup]
    rfl
  rw [mainLayerLoop.eq_def, hfn]
  exact mapM_except_ok _ layers

/-- C7: for a supported non-identity editor type, a layer whose weights
file is not discoverable (no editors_dir, or the file does not exist) makes
load_editor return None without loading weights, and the main loop skips
exactly that layer while still producing an outcome for every requested
layer. -/
theorem remedi_C7_missing_weights_skips_layer {β : Type} (supported : List String)
    (ex : List String → Bool) (editor_type : String)
    (editors_dir : Option (List String)) (runB : Editor → β)
    (layers : List Nat) (layer : Nat)
    (hsup : editor_type ∈ supported) (hty : editor_type ≠ "identity")
    (hmiss : editors_dir = none
      ∨ ∃ d, editors_dir = some d ∧ ex (weights_file d editor_type layer) = false) :
    load_editor supported ex editor_type layer editors_dir =
      Except.ok (none, false)
    ∧ ∃ outs, mainLayerLoop supported ex editor_type editors_dir runB layers =
        Except.ok outs
      ∧ outs.map Prod.fst = layers
      ∧ (layer ∈ layers → (layer, (none : Option β)) ∈ outs) := by
  have hcore : load_editor_core ex editor_type layer editors_dir = (none, false) := by
    rcases hmiss with h | ⟨d, hd, hex⟩
    · rw [load_editor_core.eq_def, h]
      simp [hty]
    · rw [load_editor_core.eq_def, hd]
      simp [hty, hex]
  refine ⟨?_, ?_⟩
  · rw [load_editor, if_pos hsup, hcore]
  · refine ⟨layers.map fun l =>
      (l, (load_editor_core ex editor_type l editors_dir).1.map runB),
      mainLayerLoop_ok supported ex editor_type editors_dir runB hsup layers,
      ?_, ?_⟩
    · rw [List.map_map]
      exact List.map_id layers
    · intro hmem
      refine List.mem_map.mpr ⟨layer, hmem, ?_⟩
      rw [hcore]
      rfl

/-- C7 witness: the skip theorem applied to a concrete configuration with
no editors directory and layers [3, 4]. -/
theorem remedi_C7_missing_weights_skips_layer_witness :
    load_editor ["identity", "linear"] (fun _ => false) "linear" 3 none =
      Except.ok (none, false)
    ∧ ∃ outs, mainLayerLoop ["identity", "linear"] (fun _ => false) "linear" none
        (fun _ => (0 : Nat)) [3, 4] = Except.ok outs
      ∧ outs.map Prod.fst = [3, 4]
      ∧ ((3 : Nat) ∈ [3, 4] → ((3 : Nat), (none : Option Nat)) ∈ outs) :=
  remedi_C7_missing_weights_skips_layer ["identity", "linear"] (fun _ => false)
    "linear" none (fun _ => (0 : Nat)) [3, 4] 3 (by decide) (by decide)
    (Or.inl rfl)

/-- C10: for a supported editor type, load_editor returns None exactly when
the type is not identity and either no editors directory was supplied or
the expected weights file does not exist; for the identity type it always
returns the constructed editor and reads no weights file from disk. -/
theorem remedi_C10_load_editor_none_iff (supported : List String)
    (ex : List String → Bool) (editor_type : String) (layer : Nat)
    (editors_dir : Option (List String)) (hsup : editor_type ∈ supported) :
    ((∃ b, load_editor supported ex editor_type layer editors_dir =
        Except.ok (none, b)) ↔
      (editor_type ≠ "identity"
        ∧ (editors_dir = none
          ∨ ∃ d, editors_dir = some d
              ∧ ex (weights_file d editor_type layer) = false)))
    ∧ (editor_type = "identity" →
        load_editor supported ex editor_type layer editors_dir =
          Except.ok (some (Editor.mk editor_type layer false), false)) := by
  constructor
  · constructor
    · rintro ⟨b, hb⟩
      rw [load_editor, if_pos hsup] at hb
      have hcore : load_editor_core ex editor_type layer editors_dir = (none, b) := by
        exact Except.ok.inj hb
      by_cases hty : editor_type = "identity"
      · rw [load_editor_core.eq_def] at hcore
        simp [hty] at hcore
      · refine ⟨hty, ?_⟩
        rcases hd : editors_dir with _ | d
        · exact Or.inl rfl
        · refine Or.inr ⟨d, rfl, ?_⟩
          rw [load_editor_core.eq_def, hd] at hcore
          simp only [if_pos (show editor_type ≠ "identity" from hty)] at hcore
          by_cases hex : ex (weights_file d editor_type layer) = true
          · rw [if_pos hex] at hcore
            simp at hcore
          · simpa using hex
    · rintro ⟨hty, hmiss⟩
      refine ⟨false, ?_⟩
      rw [load_editor, if_pos hsup]
      rcases hmiss with h | ⟨d, hd, hex⟩
      · rw [load_editor_core.eq_def, h]
        simp [hty]
      · rw [load_editor_core.eq_def, hd]
        simp [hty, hex]
  · intro hty
    rw [load_editor, if_pos hsup, load_editor_core.eq_def]
    simp [hty]

/-- C10 witness: the characterization applied at two concrete
configurations: a non-identity type with a missing weights file, and the
identity type. -/
theorem remedi_C10_load_editor_none_iff_witness :
    ((∃ b, load_editor ["identity", "linear"] (fun _ => false) "linear" 5
        (some ["dir"]) = Except.ok (none, b)) ↔
      ("linear" ≠ "identity"
        ∧ ((some ["dir"] : Option (List String)) = none
          ∨ ∃ d, (some ["dir"] : Option (List String)) = some d
              ∧ (fun _ => false) (weights_file d "linear" 5) = false)))
    ∧ ("identity" = "identity" →
        load_editor ["identity", "linear"] (fun _ => false) "identity" 5
          (some ["dir"]) =
          Except.ok (some (Editor.mk "identity" 5 false), false)) :=
  ⟨(remedi_C10_load_editor_none_iff ["identity", "linear"] (fun _ => false)
      "linear" 5 (some ["dir"]) (by decide)).1,
    (remedi_C10_load_editor_none_iff ["identity", "linear"] (fun _ => false)
      "identity" 5 (some ["dir"]) (by decide)).2⟩
